import Mathlib

/-!
Shallow embedding of `src/MCP-DOCKER-main/app.py`, the Flask REST gateway
to a local Docker engine, together with theorems settling the claims of
the specification about it.

The Python module holds one piece of state, the module-level `client`
(`client = get_docker_client()`), an engine connection handle that is
`None` when the connection could not be established.  Each Flask handler
reads this global (none of them contains a `global client` statement or
any assignment to it), calls the Docker SDK, and shapes a JSON response.

The embedding models:
  * JSON values (`JVal`) and HTTP responses (`Resp`, a status code and a
    JSON body);
  * the outcome of one Docker SDK call (`ERes`): a normal return, a
    raised `docker.errors.NotFound` (with the exception's message), or
    any other raised exception (with `str(e)`);
  * the engine client as a record of functions (`Engine`), one per SDK
    operation the handlers use; `Option Engine` is the module global
    `client` (with `none` for the unconnected state);
  * each handler as a pure function returning its `Resp` together with
    the list of engine calls (`ECall`) it issued, in order, so that
    claims of the form "the adapter is never invoked" are statable.
-/

namespace MCPDocker

/-- JSON values, as produced by `flask.jsonify` and `request.get_json`. -/
inductive JVal where
  | null : JVal
  | bool : Bool → JVal
  | int : Int → JVal
  | str : String → JVal
  | arr : List JVal → JVal
  | obj : List (String × JVal) → JVal

/-- An HTTP response: status code and JSON body.  Flask's default status
for `return jsonify(...)` without an explicit code is 200. -/
structure Resp where
  status : Nat
  body : JVal

/-- A container as the Docker SDK reports it: full identifier, name,
lifecycle status string, and the image's list of tags. -/
structure Container where
  id : String
  name : String
  status : String
  imageTags : List String
  deriving DecidableEq

/-- Outcome of one Docker SDK call: a normal return, a raised
`docker.errors.NotFound` carrying the exception's message, or any other
raised exception carrying `str(e)`. -/
inductive ERes (α : Type) where
  | ok : α → ERes α
  | notFound : String → ERes α
  | err : String → ERes α

/-- The connected Docker client: one function per SDK operation the
handlers use.  `listC b` is `client.containers.list(all=b)` (the
handlers call it with `b = false` for `/containers` and `b = true` for
`/containers/all`); `getC` is `client.containers.get(id)`; the rest are
the methods on a resolved container handle. -/
structure Engine where
  listC : Bool → ERes (List Container)
  getC : String → ERes Container
  startC : Container → ERes Unit
  stopC : Container → ERes Unit
  removeC : Container → Bool → ERes Unit
  logsC : Container → Nat → Bool → ERes String
  execC : Container → JVal → ERes (Int × String)

/-- One engine call as issued by a handler, recorded so that claims
about which calls are attempted can be stated. -/
inductive ECall where
  | listCall : Bool → ECall
  | getCall : String → ECall
  | startCall : Container → ECall
  | stopCall : Container → ECall
  | removeCall : Container → Bool → ECall
  | logsCall : Container → Nat → Bool → ECall
  | execCall : Container → JVal → ECall

/-- The error envelope `jsonify({'error': msg})`. -/
def errBody (msg : String) : JVal :=
  .obj [("error", .str msg)]

/-- The response every data-plane handler returns when the module-level
client is `None`: `jsonify({'error': 'Docker client não conectado'}), 503`. -/
def notConnected : Resp :=
  ⟨503, errBody "Docker client não conectado"⟩

/-- The response of the `except docker.errors.NotFound` branches:
`jsonify({'error': 'Container não encontrado'}), 404`. -/
def notFound404 : Resp :=
  ⟨404, errBody "Container não encontrado"⟩

/-- The per-container dictionary both list endpoints build:
`{'id': container.id[:12], 'name': container.name, 'status':
container.status, 'image': container.image.tags[0] if
container.image.tags else 'unknown'}`. -/
def summarize (c : Container) : JVal :=
  .obj [("id", .str (c.id.take 12)),
        ("name", .str c.name),
        ("status", .str c.status),
        ("image", .str (match c.imageTags with
          | [] => "unknown"
          | t :: _ => t))]

/-- `GET /health` (`health_check`): always `jsonify({'status': 'healthy',
'timestamp': datetime.now().isoformat(), 'docker_connected': client is
not None})`, status 200.  `ts` stands for the wall-clock timestamp. -/
def health_check (client : Option Engine) (ts : String) : Resp :=
  ⟨200, .obj [("status", .str "healthy"),
              ("timestamp", .str ts),
              ("docker_connected", .bool client.isSome)]⟩

/-- `GET /containers` (`list_running_containers`): 503 if the client is
`None`; otherwise `client.containers.list()` mapped through `summarize`,
with any exception caught and returned as 500 with `str(e)`. -/
def list_running_containers (client : Option Engine) : Resp × List ECall :=
  match client with
  | none => (notConnected, [])
  | some e =>
    match e.listC false with
    | .ok cs => (⟨200, .arr (cs.map summarize)⟩, [.listCall false])
    | .notFound m => (⟨500, errBody m⟩, [.listCall false])
    | .err m => (⟨500, errBody m⟩, [.listCall false])

/-- `GET /containers/all` (`list_all_containers`): as
`list_running_containers` but with `client.containers.list(all=True)`. -/
def list_all_containers (client : Option Engine) : Resp × List ECall :=
  match client with
  | none => (notConnected, [])
  | some e =>
    match e.listC true with
    | .ok cs => (⟨200, .arr (cs.map summarize)⟩, [.listCall true])
    | .notFound m => (⟨500, errBody m⟩, [.listCall true])
    | .err m => (⟨500, errBody m⟩, [.listCall true])

/-- `POST /containers/{id}/start` (`start_container`): 503 if the client
is `None`; then `get` (NotFound → 404, other exception → 500), then
`container.start()` (same exception mapping), then the success body. -/
def start_container (client : Option Engine) (cid : String) : Resp × List ECall :=
  match client with
  | none => (notConnected, [])
  | some e =>
    match e.getC cid with
    | .notFound _ => (notFound404, [.getCall cid])
    | .err m => (⟨500, errBody m⟩, [.getCall cid])
    | .ok c =>
      match e.startC c with
      | .ok _ =>
        (⟨200, .obj [("message", .str ("Container " ++ cid ++ " iniciado com sucesso")),
                     ("status", .str "started")]⟩, [.getCall cid, .startCall c])
      | .notFound _ => (notFound404, [.getCall cid, .startCall c])
      | .err m => (⟨500, errBody m⟩, [.getCall cid, .startCall c])

/-- `POST /containers/{id}/stop` (`stop_container`): as `start_container`
with `container.stop()` and the stopped success body. -/
def stop_container (client : Option Engine) (cid : String) : Resp × List ECall :=
  match client with
  | none => (notConnected, [])
  | some e =>
    match e.getC cid with
    | .notFound _ => (notFound404, [.getCall cid])
    | .err m => (⟨500, errBody m⟩, [.getCall cid])
    | .ok c =>
      match e.stopC c with
      | .ok _ =>
        (⟨200, .obj [("message", .str ("Container " ++ cid ++ " parado com sucesso")),
                     ("status", .str "stopped")]⟩, [.getCall cid, .stopCall c])
      | .notFound _ => (notFound404, [.getCall cid, .stopCall c])
      | .err m => (⟨500, errBody m⟩, [.getCall cid, .stopCall c])

/-- `GET /containers/{id}/logs` (`get_container_logs`): 503 if the
client is `None`; then `get`, then one call
`container.logs(tail=100, timestamps=True)` whose decoded text is
returned as `{'container_id': cid, 'logs': logs}`. -/
def get_container_logs (client : Option Engine) (cid : String) : Resp × List ECall :=
  match client with
  | none => (notConnected, [])
  | some e =>
    match e.getC cid with
    | .notFound _ => (notFound404, [.getCall cid])
    | .err m => (⟨500, errBody m⟩, [.getCall cid])
    | .ok c =>
      match e.logsC c 100 true with
      | .ok s =>
        (⟨200, .obj [("container_id", .str cid), ("logs", .str s)]⟩,
         [.getCall cid, .logsCall c 100 true])
      | .notFound _ => (notFound404, [.getCall cid, .logsCall c 100 true])
      | .err m => (⟨500, errBody m⟩, [.getCall cid, .logsCall c 100 true])

/-- Python's `str.lower()`: each character mapped to its lowercase form
(the values compared here are ASCII). -/
def lowerStr (s : String) : String :=
  ⟨s.data.map Char.toLower⟩

/-- The force-flag parsing of `remove_container`:
`request.args.get('force', 'false').lower() == 'true'`.  `q` is the raw
`force` query parameter, `none` when absent. -/
def parseForce (q : Option String) : Bool :=
  lowerStr (q.getD "false") == "true"

/-- `DELETE /containers/{id}/remove` (`remove_container`): 503 if the
client is `None`; then the force flag is parsed from the query string,
`get` resolves the container, and `container.remove(force=force)` is
issued, with the usual exception mapping. -/
def remove_container (client : Option Engine) (cid : String) (q : Option String) :
    Resp × List ECall :=
  match client with
  | none => (notConnected, [])
  | some e =>
    let force := parseForce q
    match e.getC cid with
    | .notFound _ => (notFound404, [.getCall cid])
    | .err m => (⟨500, errBody m⟩, [.getCall cid])
    | .ok c =>
      match e.removeC c force with
      | .ok _ =>
        (⟨200, .obj [("message", .str ("Container " ++ cid ++ " removido com sucesso")),
                     ("status", .str "removed")]⟩, [.getCall cid, .removeCall c force])
      | .notFound _ => (notFound404, [.getCall cid, .removeCall c force])
      | .err m => (⟨500, errBody m⟩, [.getCall cid, .removeCall c force])

/-- The value bound to `data['command']` in `exec_command`: the value
under the key `command` of the parsed JSON object. -/
def lookupCmd (d : List (String × JVal)) : Option JVal :=
  (d.find? (fun p => p.1 == "command")).map (fun p => p.2)

/-- The condition of `if not data or 'command' not in data` in
`exec_command`, over the parsed JSON body (`none` when
`request.get_json()` yields no body, `some d` for a parsed JSON object
`d`): true when the body is absent, an empty object (falsy in Python),
or lacks the key `command`. -/
def missingCommand : Option (List (String × JVal)) → Bool
  | none => true
  | some d => d.isEmpty || !(d.any (fun p => p.1 == "command"))

/-- `POST /containers/{id}/exec` (`exec_command`): 503 if the client is
`None` — this check precedes everything else; then the body validation
`if not data or 'command' not in data` returning 400; then `get`, then
`container.exec_run(data['command'])` with the submitted value forwarded
as is, the success body echoing it back with exit code and decoded
output. -/
def exec_command (client : Option Engine) (cid : String)
    (data : Option (List (String × JVal))) : Resp × List ECall :=
  match client with
  | none => (notConnected, [])
  | some e =>
    if missingCommand data then
      (⟨400, errBody "Campo \"command\" é obrigatório"⟩, [])
    else
      let cmd := (lookupCmd (data.getD [])).getD .null
      match e.getC cid with
      | .notFound _ => (notFound404, [.getCall cid])
      | .err m => (⟨500, errBody m⟩, [.getCall cid])
      | .ok c =>
        match e.execC c cmd with
        | .ok r =>
          (⟨200, .obj [("container_id", .str cid),
                       ("command", cmd),
                       ("exit_code", .int r.1),
                       ("output", .str r.2)]⟩, [.getCall cid, .execCall c cmd])
        | .notFound _ => (notFound404, [.getCall cid, .execCall c cmd])
        | .err m => (⟨500, errBody m⟩, [.getCall cid, .execCall c cmd])

/-- One incoming HTTP request, by route, carrying what the handler reads
from it (path id, `force` query parameter, parsed JSON body, and for
`/health` the wall-clock timestamp the handler formats). -/
inductive Request where
  | health (ts : String)
  | listRunning
  | listAll
  | start (cid : String)
  | stop (cid : String)
  | logs (cid : String)
  | remove (cid : String) (q : Option String)
  | exec (cid : String) (data : Option (List (String × JVal)))

/-- The whole of the service's own state: the module-level `client`
handle, set once at import time by `client = get_docker_client()`. -/
structure ServiceState where
  client : Option Engine

/-- Dispatch of one request by the Flask router.  No handler in the
source contains an assignment to the module-level `client` (nor a
`global client` declaration), so the state after handling is the state
before handling; the embedding returns it alongside the response and the
list of engine calls issued. -/
def handle (st : ServiceState) (r : Request) : Resp × List ECall × ServiceState :=
  match r with
  | .health ts => (health_check st.client ts, [], st)
  | .listRunning => let p := list_running_containers st.client; (p.1, p.2, st)
  | .listAll => let p := list_all_containers st.client; (p.1, p.2, st)
  | .start cid => let p := start_container st.client cid; (p.1, p.2, st)
  | .stop cid => let p := stop_container st.client cid; (p.1, p.2, st)
  | .logs cid => let p := get_container_logs st.client cid; (p.1, p.2, st)
  | .remove cid q => let p := remove_container st.client cid q; (p.1, p.2, st)
  | .exec cid d => let p := exec_command st.client cid d; (p.1, p.2, st)

/-- The data-plane routes: every route except `/health`. -/
def isDataPlane : Request → Bool
  | .health _ => false
  | _ => true

/-- The log reads among a list of engine calls, as (tail, timestamps)
pairs. -/
def logReads : List ECall → List (Nat × Bool)
  | [] => []
  | .logsCall _ n b :: rest => (n, b) :: logReads rest
  | _ :: rest => logReads rest

/-- Modelled from the spec: the engine's `list(includeStopped)`
semantics ("returns all container summaries currently known to the
engine; includeStopped=false returns only containers in a running
state").  The Docker SDK implementing it is outside this repository, so
its behaviour is taken from the spec's adapter contract: over a known
set `cs` of containers, `includeStopped = true` yields all of them and
`includeStopped = false` only those whose status is "running". -/
def specList (cs : List Container) (includeStopped : Bool) : List Container :=
  if includeStopped then cs else cs.filter (fun c => c.status == "running")

/-- A sample container, used to instantiate theorems at concrete
inputs. -/
def egContainer : Container :=
  { id := "0123456789abcdef", name := "web", status := "running", imageTags := ["nginx:latest"] }

/-- A sample connected engine over the one-container state
`[egContainer]`, following `specList` for listing and resolving every
lookup to that container; used to instantiate theorems at concrete
inputs. -/
def egEngine : Engine where
  listC := fun b => .ok (specList [egContainer] b)
  getC := fun _ => .ok egContainer
  startC := fun _ => .ok ()
  stopC := fun _ => .ok ()
  removeC := fun _ _ => .ok ()
  logsC := fun _ _ _ => .ok "2024-01-01T00:00:00Z hello\n"
  execC := fun _ _ => .ok (0, "ok\n")

/-- A sample connected engine on which every container lookup raises
`docker.errors.NotFound`; used to instantiate theorems at concrete
inputs. -/
def egEngineNF : Engine where
  listC := fun _ => .ok []
  getC := fun _ => .notFound "404 Client Error: no such container"
  startC := fun _ => .ok ()
  stopC := fun _ => .ok ()
  removeC := fun _ _ => .ok ()
  logsC := fun _ _ _ => .ok ""
  execC := fun _ _ => .ok (0, "")

/-- The elements of a JSON array body (empty for non-array bodies). -/
def arrElems : JVal → List JVal
  | .arr l => l
  | _ => []

/-- C1 counterexample: the claim says a POST exec request lacking the
`command` field is answered 400 even when the engine connection handle
is null, but in `exec_command` the `client is None` check precedes body
validation, so with a null handle and an absent body the response status
is 503, not 400. -/
theorem exec_disconnected_missing_command_is_503 :
    (exec_command none "abc123def456" none).1.status = 503 ∧
    (exec_command none "abc123def456" none).1.status ≠ 400 :=
  ⟨rfl, by decide⟩

/-- C1 (amended): with a connected engine handle, every POST exec
request whose body is absent or lacks the `command` field is answered
400 with the error body, and no engine call is issued; with a null
handle the availability check fires first and the response is 503. -/
theorem exec_missing_command_400_when_connected (e : Engine) (cid : String)
    (data : Option (List (String × JVal))) (h : missingCommand data = true) :
    (exec_command (some e) cid data).1.status = 400 ∧
    (exec_command (some e) cid data).1.body = errBody "Campo \"command\" é obrigatório" ∧
    (exec_command (some e) cid data).2 = [] ∧
    (exec_command none cid data).1.status = 503 := by
  simp [exec_command, h, notConnected]

theorem exec_missing_command_400_when_connected_witness :
    missingCommand (some [("cmd", JVal.str "ls")]) = true ∧
    ((exec_command (some egEngine) "abc123def456" (some [("cmd", JVal.str "ls")])).1.status = 400 ∧
     (exec_command (some egEngine) "abc123def456" (some [("cmd", JVal.str "ls")])).1.body =
       errBody "Campo \"command\" é obrigatório" ∧
     (exec_command (some egEngine) "abc123def456" (some [("cmd", JVal.str "ls")])).2 = [] ∧
     (exec_command none "abc123def456" (some [("cmd", JVal.str "ls")])).1.status = 503) :=
  ⟨rfl, exec_missing_command_400_when_connected egEngine "abc123def456" _ rfl⟩

/-- C2: whenever the engine connection handle is null, every data-plane
endpoint answers 503 with body `{"error": "Docker client não
conectado"}` and issues no engine call. -/
theorem disconnected_data_plane_503 (r : Request) (h : isDataPlane r = true) :
    (handle ⟨none⟩ r).1.status = 503 ∧
    (handle ⟨none⟩ r).1.body = errBody "Docker client não conectado" ∧
    (handle ⟨none⟩ r).2.1 = [] := by
  cases r <;> simp_all [handle, isDataPlane, list_running_containers, list_all_containers,
    start_container, stop_container, get_container_logs, remove_container, exec_command,
    notConnected]

theorem disconnected_data_plane_503_witness :
    isDataPlane .listRunning = true ∧
    ((handle ⟨none⟩ .listRunning).1.status = 503 ∧
     (handle ⟨none⟩ .listRunning).1.body = errBody "Docker client não conectado" ∧
     (handle ⟨none⟩ .listRunning).2.1 = []) :=
  ⟨rfl, disconnected_data_plane_503 .listRunning rfl⟩

/-- C4: `GET /health` always answers 200, with the literal status
`healthy`, the timestamp, and `docker_connected` true exactly when the
engine connection handle is established (non-null) — also when the
engine is unreachable (null handle). -/
theorem health_always_200 (client : Option Engine) (ts : String) :
    (health_check client ts).status = 200 ∧
    (health_check client ts).body =
      .obj [("status", .str "healthy"), ("timestamp", .str ts),
            ("docker_connected", .bool client.isSome)] ∧
    (client.isSome = true ↔ client ≠ none) := by
  refine ⟨rfl, rfl, ?_⟩
  cases client <;> simp

/-- C9: no request handler mutates the service's own state: the engine
connection handle after handling any request equals the handle before
(no handler in the source assigns to the module-level `client`). -/
theorem handlers_preserve_state (st : ServiceState) (r : Request) :
    (handle st r).2.2 = st := by
  cases r <;> rfl

/-- C3: with a connected engine handle, a container identifier whose
engine lookup raises NotFound makes each of start, stop, logs, remove
and exec answer 404 with the error body (so never 500); for exec the
request body must pass validation for the lookup to be reached. -/
theorem unknown_id_404 (e : Engine) (cid m : String) (q : Option String)
    (d : List (String × JVal)) (h : e.getC cid = .notFound m)
    (hd : missingCommand (some d) = false) :
    (start_container (some e) cid).1 = notFound404 ∧
    (stop_container (some e) cid).1 = notFound404 ∧
    (get_container_logs (some e) cid).1 = notFound404 ∧
    (remove_container (some e) cid q).1 = notFound404 ∧
    (exec_command (some e) cid (some d)).1 = notFound404 ∧
    notFound404.status = 404 ∧ notFound404.status ≠ 500 := by
  refine ⟨?_, ?_, ?_, ?_, ?_, rfl, by decide⟩ <;>
    simp [start_container, stop_container, get_container_logs, remove_container,
      exec_command, h, hd]

theorem unknown_id_404_witness :
    egEngineNF.getC "abc123def456" = .notFound "404 Client Error: no such container" ∧
    missingCommand (some [("command", JVal.str "ls")]) = false ∧
    ((start_container (some egEngineNF) "abc123def456").1 = notFound404 ∧
     (stop_container (some egEngineNF) "abc123def456").1 = notFound404 ∧
     (get_container_logs (some egEngineNF) "abc123def456").1 = notFound404 ∧
     (remove_container (some egEngineNF) "abc123def456" none).1 = notFound404 ∧
     (exec_command (some egEngineNF) "abc123def456" (some [("command", JVal.str "ls")])).1 = notFound404 ∧
     notFound404.status = 404 ∧ notFound404.status ≠ 500) :=
  ⟨rfl, rfl, unknown_id_404 egEngineNF "abc123def456" _ none _ rfl rfl⟩

/-- C5: for the same engine state (list results given by `specList` over
one known set of containers), every summary returned by `GET
/containers` also appears in the answer of `GET /containers/all`. -/
theorem running_subset_all (e : Engine) (cs : List Container)
    (hl : ∀ b, e.listC b = .ok (specList cs b)) (v : JVal)
    (hv : v ∈ arrElems (list_running_containers (some e)).1.body) :
    v ∈ arrElems (list_all_containers (some e)).1.body := by
  have h0 := hl false
  have h1 := hl true
  simp [list_running_containers, h0, specList, arrElems] at hv
  simp [list_all_containers, h1, specList, arrElems]
  obtain ⟨c, ⟨hc, _⟩, hcv⟩ := hv
  exact ⟨c, hc, hcv⟩

theorem running_subset_all_witness :
    (∀ b, egEngine.listC b = .ok (specList [egContainer] b)) ∧
    summarize egContainer ∈ arrElems (list_running_containers (some egEngine)).1.body ∧
    summarize egContainer ∈ arrElems (list_all_containers (some egEngine)).1.body :=
  ⟨fun _ => rfl, List.Mem.head _,
   running_subset_all egEngine [egContainer] (fun _ => rfl) _ (List.Mem.head _)⟩

/-- C6: the force flag handed to the engine's remove call is the parse
of the `force` query parameter, and that parse is true exactly when the
parameter is present and equals "true" case-insensitively; when absent
or any other value, it is false. -/
theorem remove_force_flag (e : Engine) (cid : String) (q : Option String) (c : Container)
    (h : e.getC cid = .ok c) :
    ECall.removeCall c (parseForce q) ∈ (remove_container (some e) cid q).2 ∧
    (parseForce q = true ↔ ∃ s, q = some s ∧ lowerStr s = "true") := by
  constructor
  · simp only [remove_container, h]
    cases e.removeC c (parseForce q) <;> simp
  · cases q with
    | none =>
      constructor
      · intro hf; exact absurd hf (by decide)
      · rintro ⟨s, hs, _⟩; cases hs
    | some s =>
      constructor
      · intro hf
        exact ⟨s, rfl, by simpa [parseForce] using hf⟩
      · rintro ⟨t, ht, h2⟩
        obtain rfl := Option.some.inj ht
        simp [parseForce, h2]

theorem remove_force_flag_witness :
    egEngine.getC "abc123def456" = .ok egContainer ∧
    (ECall.removeCall egContainer (parseForce (some "TRUE")) ∈
       (remove_container (some egEngine) "abc123def456" (some "TRUE")).2 ∧
     (parseForce (some "TRUE") = true ↔ ∃ s, some "TRUE" = some s ∧ lowerStr s = "true")) :=
  ⟨rfl, remove_force_flag egEngine "abc123def456" (some "TRUE") egContainer rfl⟩

/-- C7: each list endpoint's body is exactly the engine's current list
mapped through `summarize` (recomputed from the engine result of that
call, no cache), and `summarize` produces exactly the fields id (first
12 characters of the full identifier), name, status, and image (first
tag, or "unknown" when the image has no tags). -/
theorem list_summary_shape (e : Engine) (csr csa : List Container)
    (hr : e.listC false = .ok csr) (ha : e.listC true = .ok csa) :
    (list_running_containers (some e)).1.body = .arr (csr.map summarize) ∧
    (list_all_containers (some e)).1.body = .arr (csa.map summarize) ∧
    ∀ c : Container, summarize c =
      .obj [("id", .str (c.id.take 12)), ("name", .str c.name),
            ("status", .str c.status),
            ("image", .str (c.imageTags.headD "unknown"))] := by
  refine ⟨?_, ?_, ?_⟩
  · simp [list_running_containers, hr]
  · simp [list_all_containers, ha]
  · intro c
    cases h : c.imageTags <;> simp [summarize, h]

theorem list_summary_shape_witness :
    egEngine.listC false = .ok [egContainer] ∧
    egEngine.listC true = .ok [egContainer] ∧
    ((list_running_containers (some egEngine)).1.body = .arr ([egContainer].map summarize) ∧
     (list_all_containers (some egEngine)).1.body = .arr ([egContainer].map summarize) ∧
     ∀ c : Container, summarize c =
       .obj [("id", .str (c.id.take 12)), ("name", .str c.name),
             ("status", .str c.status),
             ("image", .str (c.imageTags.headD "unknown"))]) :=
  ⟨rfl, rfl, list_summary_shape egEngine [egContainer] [egContainer] rfl rfl⟩

/-- C8: on a resolvable container with a connected engine, the logs
handler issues exactly one log read, with tail 100 and timestamps
enabled, and on success the body is {container_id, logs} with the
decoded text of that read. -/
theorem logs_single_bounded_read (e : Engine) (cid : String) (c : Container) (s : String)
    (hg : e.getC cid = .ok c) (hl : e.logsC c 100 true = .ok s) :
    (get_container_logs (some e) cid).1.status = 200 ∧
    (get_container_logs (some e) cid).1.body =
      .obj [("container_id", .str cid), ("logs", .str s)] ∧
    logReads (get_container_logs (some e) cid).2 = [(100, true)] := by
  simp [get_container_logs, hg, hl, logReads]

theorem logs_single_bounded_read_witness :
    egEngine.getC "abc123def456" = .ok egContainer ∧
    egEngine.logsC egContainer 100 true = .ok "2024-01-01T00:00:00Z hello\n" ∧
    ((get_container_logs (some egEngine) "abc123def456").1.status = 200 ∧
     (get_container_logs (some egEngine) "abc123def456").1.body =
       .obj [("container_id", .str "abc123def456"),
             ("logs", .str "2024-01-01T00:00:00Z hello\n")] ∧
     logReads (get_container_logs (some egEngine) "abc123def456").2 = [(100, true)]) :=
  ⟨rfl, rfl, logs_single_bounded_read egEngine "abc123def456" egContainer _ rfl rfl⟩

/-- The body-validation condition of `exec_command`, characterized: it
holds exactly when the body is absent, is the empty object (falsy in
Python), or lacks the key `command`. -/
theorem missingCommand_iff (data : Option (List (String × JVal))) :
    missingCommand data = true ↔
      (data = none ∨ data = some [] ∨
        ∃ d, data = some d ∧ ∀ p ∈ d, p.1 ≠ "command") := by
  cases data with
  | none => simp [missingCommand]
  | some d =>
    simp [missingCommand, List.isEmpty_iff]

/-- C10: exec body validation inspects only the body's truthiness and
the presence of the key `command`: 400 is answered exactly when the body
is absent, the empty object, or lacks the key; any present value —
`null` or the empty string included — passes validation and is forwarded
unchanged to the engine's exec call. -/
theorem exec_validation_shallow (e : Engine) (cid : String)
    (data : Option (List (String × JVal))) :
    ((exec_command (some e) cid data).1.status = 400 ↔
      (data = none ∨ data = some [] ∨
        ∃ d, data = some d ∧ ∀ p ∈ d, p.1 ≠ "command")) ∧
    (∀ d c v, data = some d → e.getC cid = .ok c → lookupCmd d = some v →
      ECall.execCall c v ∈ (exec_command (some e) cid data).2) := by
  constructor
  · rw [← missingCommand_iff]
    by_cases hm : missingCommand data = true
    · simp [exec_command, hm]
    · simp only [Bool.not_eq_true] at hm
      simp only [exec_command, hm, Bool.false_eq_true, if_false]
      cases hg : e.getC cid with
      | notFound m => simp [hg, hm, notFound404, errBody]
      | err m => simp [hg, hm]
      | ok c =>
        cases hx : e.execC c ((lookupCmd (data.getD [])).getD .null) <;>
          simp [hg, hx, hm, notFound404, errBody]
  · rintro d c v rfl hg hv
    obtain ⟨p, hf, hp2⟩ := Option.map_eq_some'.mp hv
    have hmem : p ∈ d := List.mem_of_find?_eq_some hf
    have hkey := List.find?_some hf
    have hie : d.isEmpty = false := by
      simpa [List.isEmpty_iff] using List.ne_nil_of_mem hmem
    have hany : d.any (fun p => p.1 == "command") = true :=
      List.any_eq_true.mpr ⟨p, hmem, hkey⟩
    have hm : missingCommand (some d) = false := by
      simp [missingCommand, hie, hany]
    simp only [exec_command, hm, Bool.false_eq_true, if_false, Option.getD_some, hv, hg]
    cases hx : e.execC c v <;> simp

theorem exec_validation_shallow_witness :
    some [("command", JVal.null)] = some [("command", JVal.null)] ∧
    egEngine.getC "abc123def456" = .ok egContainer ∧
    lookupCmd [("command", JVal.null)] = some JVal.null ∧
    ECall.execCall egContainer JVal.null ∈
      (exec_command (some egEngine) "abc123def456" (some [("command", JVal.null)])).2 :=
  ⟨rfl, rfl, rfl,
   (exec_validation_shallow egEngine "abc123def456" (some [("command", JVal.null)])).2
     [("command", JVal.null)] egContainer JVal.null rfl rfl rfl⟩

end MCPDocker
